import Mathlib

/-!
Verification development for `cloud-run/python/ai_login.py` of the
auto-invoice-collector repository.

The script drives an external browser-automation agent to log into a vendor
portal and reports the session cookies as a JSON line plus a process exit
code.  The shallow embedding below models every call into the external world
(LLM client construction, browser construction, agent construction and run,
browser-context retrieval, cookie read, page selection, screenshot, browser
close) as an oracle value of type `Except String _` supplied by a `Delegate`
record: `Except.error e` means the call raised an exception whose `str` is
`e`.  `perform_login` then becomes a pure function from the oracle and the
call arguments to a `RunOutput` that records the returned `AILoginResult`,
the ordered trace of externally visible events, the final value of the
`_AI_LOGIN_PASSWORD` environment variable, and the `final_url` local that the
outcome classifier consumed.
-/

namespace AiLogin

/-- Character-list prefix test: `strHeadMatch needle hay` is true when
`needle` is an initial segment of `hay`.  Helper for Python's substring
operator `in`. -/
def strHeadMatch : List Char → List Char → Bool
  | [], _ => true
  | _ :: _, [] => false
  | n :: ns, h :: hs => n == h && strHeadMatch ns hs

/-- `strContainsAux needle hay` is true when `needle` occurs as a contiguous
run inside `hay`. -/
def strContainsAux (needle : List Char) : List Char → Bool
  | [] => strHeadMatch needle []
  | h :: hs => strHeadMatch needle (h :: hs) || strContainsAux needle hs

/-- Python's `needle in hay` on strings: substring containment over code
points (an empty needle is contained in every string). -/
def strContains (hay needle : String) : Bool :=
  strContainsAux needle.toList hay.toList

/-- A cookie record as handed back by the browser context, before
normalization: each of the eight fields that `ai_login.py` reads via
`c.get(key, default)` may be absent (`none`). -/
structure RawCookie where
  name : Option String
  value : Option String
  domain : Option String
  path : Option String
  expires : Option Int
  httpOnly : Option Bool
  secure : Option Bool
  sameSite : Option String
deriving DecidableEq

/-- The normalized cookie shape emitted by `perform_login`
(`ai_login.py` lines 200-212): all eight fields always present. -/
structure Cookie where
  name : String
  value : String
  domain : String
  path : String
  expires : Int
  httpOnly : Bool
  secure : Bool
  sameSite : String
deriving DecidableEq

/-- The dict comprehension of `ai_login.py` lines 200-212: every field is
read with `c.get(key, default)`, so absent fields receive the defaults
`""`, `"/"` for `path`, `-1` for `expires`, `False` for the booleans and
`"Lax"` for `sameSite`. -/
def normalizeCookie (c : RawCookie) : Cookie :=
  { name := c.name.getD ""
    value := c.value.getD ""
    domain := c.domain.getD ""
    path := c.path.getD "/"
    expires := c.expires.getD (-1)
    httpOnly := c.httpOnly.getD false
    secure := c.secure.getD false
    sameSite := c.sameSite.getD "Lax" }

/-- `AILoginResult` of `ai_login.py` lines 38-51: the constructor coalesces
`cookies=None` and `screenshots=None` to `[]`, so the embedded record keeps
plain lists for those two fields and an `Option` for `error`. -/
structure AILoginResult where
  success : Bool
  cookies : List Cookie
  error : Option String
  screenshots : List String
deriving DecidableEq

/-- The Python dict produced by `AILoginResult.to_dict`: a key that the
method may leave out entirely is modeled as an `Option` (so the `error` key,
whose value is itself optional, is an `Option (Option String)`). -/
structure ResultDict where
  success : Bool
  cookies : Option (List Cookie)
  error : Option (Option String)
  screenshots : Option (List String)
deriving DecidableEq

/-- `AILoginResult.to_dict` (`ai_login.py` lines 53-61): always emits
`success`; emits `cookies` exactly when `success` is true, `error` exactly
when it is false, and `screenshots` only when the list is non-empty. -/
def AILoginResult.to_dict (r : AILoginResult) : ResultDict :=
  { success := r.success
    cookies := if r.success then some r.cookies else none
    error := if r.success then none else some r.error
    screenshots := if r.screenshots.isEmpty then none else some r.screenshots }

/-- A page of the browser context: its `url` property and the behavior of
its `screenshot()` call (base64-encoded bytes on success, or a raise). -/
structure Page where
  url : String
  screenshot : Except String String

/-- The browser context returned by `browser.get_context()`: the behavior of
its `cookies()` call, its current `pages` list, and the behavior of
`new_page()`.  Following the underlying library, a successful `new_page()`
appends the fresh page to `pages`. -/
structure BrowserContext where
  cookies : Except String (List RawCookie)
  pages : List Page
  new_page : Except String Page

/-- Oracle for every external call `perform_login` makes, in source order:
`ChatAnthropic(...)`, `Browser(...)`, `Agent(...)`, `agent.run(max_steps=30)`
(whose `.ok` payload is the stringified history `str(history)` that the
classifier searches), `browser.get_context()` (which may return a falsy
context, modeled as `.ok none`), and `browser.close()`. -/
structure Delegate where
  chat_init : Except String Unit
  browser_init : Except String Unit
  agent_init : Except String Unit
  agent_run : Except String String
  get_context : Except String (Option BrowserContext)
  browser_close : Except String Unit

/-- Externally visible events of one `perform_login` call, in order of
occurrence. -/
inductive Event where
  | browserConstructed : Event
  | passwordVarSet : String → Event
  | agentConstructed : Event
  | agentRan : Event
  | browserCloseCalled : Event
deriving DecidableEq

/-- Observable outcome of one `perform_login` call: the returned result, the
ordered event trace, the final value of the `_AI_LOGIN_PASSWORD` environment
variable, and the `final_url` local fed to the outcome classifier (recorded
as `""` on paths that never computed it). -/
structure RunOutput where
  result : AILoginResult
  events : List Event
  passwordVar : Option String
  finalUrl : String
deriving DecidableEq

/-- Error message of `ai_login.py` line 134. -/
def credentialsError : String :=
  "Credentials not provided (IBJ_USERNAME or IBJ_PASSWORD missing)"

/-- Error message of `ai_login.py` line 141. -/
def apiKeyError : String :=
  "ANTHROPIC_API_KEY not set in environment"

/-- Error message of `ai_login.py` line 253. -/
def loginFailedError : String :=
  "Login did not complete successfully - still on login page"

/-- The literal success markers of `ai_login.py` line 236. -/
def successMarkers : List String :=
  ["OTP", "verification", "マイページ", "成功"]

/-- The classifier condition of `ai_login.py` lines 231-238: success when the
final URL is truthy (non-empty) and does not contain "/logins", else when the
stringified history contains one of the `successMarkers`, else failure. -/
def login_success_check (final_url history : String) : Bool :=
  if final_url ≠ "" ∧ strContains final_url "/logins" = false then true
  else if successMarkers.any (fun m => strContains history m) then true
  else false

/-- The two terminal returns of the try block, `ai_login.py` lines 246-255:
a success result carrying the cookies and screenshots, or a failure result
with `loginFailedError` carrying the screenshots. -/
def classify_outcome (final_url history : String) (cookies : List Cookie)
    (screenshots : List String) : AILoginResult :=
  if login_success_check final_url history then
    { success := true, cookies := cookies, error := none, screenshots := screenshots }
  else
    { success := false, cookies := [], error := some loginFailedError,
      screenshots := screenshots }

/-- The `except Exception` handler of `ai_login.py` lines 257-260: pop the
password variable (hence `passwordVar := none`) and return a failure result
whose error is the exception message, with the screenshots collected so far.
The handler itself performs no browser close, so the event trace is exactly
the events accumulated before the raise. -/
def handleExc (e : String) (screenshots : List String) (ev : List Event)
    (final_url : String) : RunOutput :=
  { result := { success := false, cookies := [], error := some e,
                screenshots := screenshots }
    events := ev
    passwordVar := none
    finalUrl := final_url }

/-- Tail of the try block from the classifier computation on
(`ai_login.py` lines 231-255): compute `login_success`, call
`browser.close()` — whose raise is caught by the outer handler with the
screenshots collected so far — then pop the password variable and return the
classified result. -/
def finishRun (d : Delegate) (cookies : List Cookie) (screenshots : List String)
    (final_url history : String) (ev : List Event) : RunOutput :=
  match d.browser_close with
  | .error e =>
    { result := { success := false, cookies := [], error := some e,
                  screenshots := screenshots }
      events := ev ++ [Event.browserCloseCalled]
      passwordVar := none
      finalUrl := final_url }
  | .ok _ =>
    { result := classify_outcome final_url history cookies screenshots
      events := ev ++ [Event.browserCloseCalled]
      passwordVar := none
      finalUrl := final_url }

/-- `page = await context.new_page() if not context.pages else
context.pages[0]` (`ai_login.py` line 215), outside any local try: on an
empty pages list a raised `new_page` propagates; a successful `new_page`
yields the fresh page and (per the library) appends it to `pages`, which is
what the later `context.pages[0].url` read observes. -/
def pick_page (ctx : BrowserContext) : Except String (Page × List Page) :=
  match ctx.pages with
  | [] => Except.map (fun p => (p, ctx.pages ++ [p])) ctx.new_page
  | p :: _ => Except.ok (p, ctx.pages)

/-- The guarded screenshot call of `ai_login.py` lines 216-220: a raise is
swallowed (`except Exception: pass`), a success appends the encoded image. -/
def screenshots_of (p : Page) : List String :=
  match p.screenshot with
  | .ok b => [b]
  | .error _ => []

/-- `final_url = context.pages[0].url if context and context.pages else ""`
(`ai_login.py` lines 227-229), applied to the pages list after the page
selection step. -/
def url_of (pages : List Page) : String :=
  match pages with
  | [] => ""
  | p :: _ => p.url

/-- Session extraction, `ai_login.py` lines 196-229: a falsy context yields
an empty cookie list and an empty final URL; otherwise `context.cookies()`
is read with no local guard (a raise propagates to the outer handler), the
results are normalized, a page is selected, the optional screenshot is
taken, and the final URL is read. -/
def extract_and_report (d : Delegate) (octx : Option BrowserContext)
    (history : String) (ev : List Event) : RunOutput :=
  match octx with
  | none => finishRun d [] [] "" history ev
  | some ctx =>
    match ctx.cookies with
    | .error e => handleExc e [] ev ""
    | .ok cookies_raw =>
      match pick_page ctx with
      | .error e => handleExc e [] ev ""
      | .ok pp =>
        finishRun d (cookies_raw.map normalizeCookie) (screenshots_of pp.1)
          (url_of pp.2) history ev

/-- Body after the browser is constructed, `ai_login.py` lines 167-255: the
password is written to `_AI_LOGIN_PASSWORD`, then the vendor key is checked —
any key other than "ibj" returns the unsupported-vendor failure immediately,
leaving the variable set and the browser open — then the agent is
constructed and run and the session is extracted. -/
def after_browser (d : Delegate) (vendor password : String) : RunOutput :=
  if vendor = "ibj" then
    match d.agent_init with
    | .error e =>
      handleExc e []
        [Event.browserConstructed, Event.passwordVarSet password] ""
    | .ok _ =>
      match d.agent_run with
      | .error e =>
        handleExc e []
          [Event.browserConstructed, Event.passwordVarSet password,
           Event.agentConstructed] ""
      | .ok history =>
        match d.get_context with
        | .error e =>
          handleExc e []
            [Event.browserConstructed, Event.passwordVarSet password,
             Event.agentConstructed, Event.agentRan] ""
        | .ok octx =>
          extract_and_report d octx history
            [Event.browserConstructed, Event.passwordVarSet password,
             Event.agentConstructed, Event.agentRan]
  else
    { result := { success := false, cookies := [],
                  error := some ("Unsupported vendor: " ++ vendor),
                  screenshots := [] }
      events := [Event.browserConstructed, Event.passwordVarSet password]
      passwordVar := some password
      finalUrl := "" }

/-- The try block of `ai_login.py` lines 144-260: LLM client construction and
browser construction may raise before the password variable is set and before
any event is observed; afterwards control continues in `after_browser`. -/
def run_try (d : Delegate) (vendor password : String) : RunOutput :=
  match d.chat_init with
  | .error e => handleExc e [] [] ""
  | .ok _ =>
    match d.browser_init with
    | .error e => handleExc e [] [] ""
    | .ok _ => after_browser d vendor password

/-- `perform_login` (`ai_login.py` lines 108-260).  `d` is the oracle for
the external calls, `api_key` the value of `ANTHROPIC_API_KEY`
(`none` = unset), and `passwordVar0` the value of `_AI_LOGIN_PASSWORD` on
entry.  The two precondition checks (lines 131-142) fire before the try
block: empty username or password, then missing or empty API key, each
returning a failure with no event and the password variable untouched.
`login_url` and `headless` only parameterize the task text and the browser
configuration and do not influence any observable modeled here. -/
def perform_login (d : Delegate) (api_key : Option String)
    (vendor login_url username password : String) (headless : Bool)
    (passwordVar0 : Option String) : RunOutput :=
  if username = "" ∨ password = "" then
    { result := { success := false, cookies := [],
                  error := some credentialsError, screenshots := [] }
      events := []
      passwordVar := passwordVar0
      finalUrl := "" }
  else if api_key.getD "" = "" then
    { result := { success := false, cookies := [],
                  error := some apiKeyError, screenshots := [] }
      events := []
      passwordVar := passwordVar0
      finalUrl := "" }
  else
    run_try d vendor password

/-- Parsed CLI flags of `main` (`ai_login.py` lines 265-293). -/
structure CliArgs where
  vendor : String
  login_url : String
  headless_flag : Bool
  no_headless : Bool

/-- The process environment read by `main`: `IBJ_USERNAME`, `IBJ_PASSWORD`,
`ANTHROPIC_API_KEY` and the initial `_AI_LOGIN_PASSWORD`. -/
structure OsEnv where
  ibj_username : Option String
  ibj_password : Option String
  anthropic_api_key : Option String
  ai_login_password : Option String

/-- Observable outcome of one `main` invocation: the lines printed to
standard output (each a serialized result dict), the exit status, and the
underlying `perform_login` outcome. -/
structure MainOutput where
  stdoutLines : List ResultDict
  exitCode : Nat
  run : RunOutput

/-- `main` (`ai_login.py` lines 263-310): read the credentials from the
environment with default `""`, compute `headless = not args.no_headless`,
run `perform_login`, print exactly one JSON line, and exit with 0 when
`result.success` and 1 otherwise. -/
def main_run (d : Delegate) (env : OsEnv) (args : CliArgs) : MainOutput :=
  let out := perform_login d env.anthropic_api_key args.vendor args.login_url
    (env.ibj_username.getD "") (env.ibj_password.getD "")
    (!args.no_headless) env.ai_login_password
  { stdoutLines := [out.result.to_dict]
    exitCode := if out.result.success then 0 else 1
    run := out }

/-! ### Helper lemmas shared by the claim theorems -/

/-- Stripping the two precondition checks of `perform_login`. -/
theorem perform_login_try (d : Delegate) (api_key : Option String)
    (vendor login_url username password : String) (headless : Bool)
    (pv : Option String) (hU : username ≠ "") (hP : password ≠ "")
    (hK : api_key.getD "" ≠ "") :
    perform_login d api_key vendor login_url username password headless pv =
      run_try d vendor password := by
  unfold perform_login
  rw [if_neg (fun hc => hc.elim hU hP), if_neg hK]

/-- Stripping the two constructor steps of the try block when both succeed. -/
theorem run_try_ok (d : Delegate) (vendor password : String)
    (hChat : d.chat_init = .ok ()) (hBrowser : d.browser_init = .ok ()) :
    run_try d vendor password = after_browser d vendor password := by
  unfold run_try
  rw [hChat, hBrowser]

/-- Every path through `finishRun` pops the password variable. -/
theorem finishRun_passwordVar (d : Delegate) (cookies : List Cookie)
    (screenshots : List String) (final_url history : String) (ev : List Event) :
    (finishRun d cookies screenshots final_url history ev).passwordVar = none := by
  unfold finishRun
  cases d.browser_close <;> rfl

/-- Every path through `finishRun` calls `browser.close()` exactly once, as
the last event. -/
theorem finishRun_events (d : Delegate) (cookies : List Cookie)
    (screenshots : List String) (final_url history : String) (ev : List Event) :
    (finishRun d cookies screenshots final_url history ev).events =
      ev ++ [Event.browserCloseCalled] := by
  unfold finishRun
  cases d.browser_close <;> rfl

/-- Every path through `extract_and_report` pops the password variable. -/
theorem extract_passwordVar (d : Delegate) (octx : Option BrowserContext)
    (history : String) (ev : List Event) :
    (extract_and_report d octx history ev).passwordVar = none := by
  cases octx with
  | none => exact finishRun_passwordVar ..
  | some ctx =>
    cases hc : ctx.cookies with
    | error e => simp [extract_and_report, hc, handleExc]
    | ok raw =>
      cases hpp : pick_page ctx with
      | error e => simp [extract_and_report, hc, hpp, handleExc]
      | ok pp => simp [extract_and_report, hc, hpp, finishRun_passwordVar]

/-- `extract_and_report` only ever appends to the event trace it is given. -/
theorem extract_events_extends (d : Delegate) (octx : Option BrowserContext)
    (history : String) (ev : List Event) :
    ∃ t, (extract_and_report d octx history ev).events = ev ++ t := by
  cases octx with
  | none => exact ⟨[Event.browserCloseCalled], finishRun_events ..⟩
  | some ctx =>
    cases hc : ctx.cookies with
    | error e =>
      refine ⟨[], ?_⟩
      simp [extract_and_report, hc, handleExc]
    | ok raw =>
      cases hpp : pick_page ctx with
      | error e =>
        refine ⟨[], ?_⟩
        simp [extract_and_report, hc, hpp, handleExc]
      | ok pp =>
        refine ⟨[Event.browserCloseCalled], ?_⟩
        simp [extract_and_report, hc, hpp, finishRun_events]

/-! ### Claim theorems -/

/-- Claim C1 (Outcome Classifier): for every final URL and stringified
history, a non-empty final URL without the substring "/logins" classifies as
success; a history containing one of the literal markers "OTP",
"verification", "マイページ", "成功" classifies as success; otherwise — empty
URL or URL still containing "/logins", and no marker — the verdict is the
failure result with message "Login did not complete successfully - still on
login page". -/
theorem outcome_classifier_rule (u h : String) (cs : List Cookie)
    (ss : List String) :
    (u ≠ "" → strContains u "/logins" = false →
      (classify_outcome u h cs ss).success = true)
  ∧ (successMarkers.any (fun m => strContains h m) = true →
      (classify_outcome u h cs ss).success = true)
  ∧ ((u = "" ∨ strContains u "/logins" = true) →
      successMarkers.any (fun m => strContains h m) = false →
      classify_outcome u h cs ss =
        { success := false, cookies := [], error := some loginFailedError,
          screenshots := ss }) := by
  refine ⟨fun hu hl => ?_, fun hm => ?_, fun hu hm => ?_⟩
  · simp [classify_outcome, login_success_check, hu, hl]
  · by_cases hfst : u ≠ "" ∧ strContains u "/logins" = false
    · simp [classify_outcome, login_success_check, hfst]
    · simp [classify_outcome, login_success_check, hfst, hm]
  · have hfst : ¬(u ≠ "" ∧ strContains u "/logins" = false) := by
      rcases hu with hu | hu
      · exact fun hc => hc.1 hu
      · simp [hu]
    simp [classify_outcome, login_success_check, hfst, hm]

/-- Witness for C1 at the three concrete cases named in the claim: final URL
"https://portal/mypage" gives success; final URL "https://portal/logins"
with a marker-free history gives the fixed failure; an empty final URL with
"OTP" in the history gives success. -/
theorem outcome_classifier_rule_witness :
    (classify_outcome "https://portal/mypage" "" [] []).success = true
  ∧ classify_outcome "https://portal/logins" "no markers here" [] [] =
      { success := false, cookies := [], error := some loginFailedError,
        screenshots := [] }
  ∧ (classify_outcome "" "OTP" [] []).success = true := by
  refine ⟨(outcome_classifier_rule "https://portal/mypage" "" [] []).1
      (by decide) (by decide),
    (outcome_classifier_rule "https://portal/logins" "no markers here" [] []).2.2
      (Or.inr (by decide)) (by decide),
    (outcome_classifier_rule "" "OTP" [] []).2.1 (by decide)⟩

/-- Claim C6 (mutual exclusivity): in every dict serialized from an
`AILoginResult`, the `cookies` key is present exactly when `success` is true
and the `error` key exactly when it is false, so exactly one of the two keys
is ever present. -/
theorem result_dict_mutual_exclusivity (r : AILoginResult) :
    ((r.to_dict).cookies.isSome = r.success)
  ∧ ((r.to_dict).error.isSome = !r.success)
  ∧ ¬((r.to_dict).cookies.isSome = true ∧ (r.to_dict).error.isSome = true)
  ∧ ((r.to_dict).cookies.isSome = true ∨ (r.to_dict).error.isSome = true) := by
  cases r with
  | mk success cookies error screenshots =>
    cases success <;> simp [AILoginResult.to_dict]

/-- Claim C8 (reporter/exit contract): every invocation of `main` writes
exactly one serialized result line to standard output and exits with status
0 exactly when the result's success flag is true, and with status 1 in every
other case. -/
theorem reporter_exit_contract (d : Delegate) (env : OsEnv) (args : CliArgs) :
    (main_run d env args).stdoutLines.length = 1
  ∧ ((main_run d env args).exitCode = 0 ↔
      (main_run d env args).run.result.success = true)
  ∧ ((main_run d env args).exitCode = 0 ∨ (main_run d env args).exitCode = 1) := by
  simp only [main_run]
  refine ⟨rfl, ?_, ?_⟩ <;>
    cases hb : (perform_login d env.anthropic_api_key args.vendor args.login_url
      (env.ibj_username.getD "") (env.ibj_password.getD "")
      (!args.no_headless) env.ai_login_password).result.success <;> simp [hb]

/-- Delegate for C10: agent run succeeds with a history mentioning "OTP",
but `browser.get_context()` returns a falsy context. -/
def dC10 : Delegate :=
  { chat_init := .ok ()
    browser_init := .ok ()
    agent_init := .ok ()
    agent_run := .ok "Step 12: reached the OTP input page"
    get_context := .ok none
    browser_close := .ok () }

/-- Claim C10 (success with empty cookies): when the browser context is
unavailable after the agent run, the cookie list is empty and the final URL
is empty, yet the classifier still reports success from the "OTP" history
marker — so a success result can carry no cookie at all. -/
theorem success_with_empty_cookies :
    (perform_login dC10 (some "key") "ibj" "https://portal/logins" "user" "pw"
      true none).result.success = true
  ∧ (perform_login dC10 (some "key") "ibj" "https://portal/logins" "user" "pw"
      true none).result.cookies = []
  ∧ (perform_login dC10 (some "key") "ibj" "https://portal/logins" "user" "pw"
      true none).finalUrl = "" := by
  refine ⟨?_, ?_, ?_⟩ <;> decide

/-- Claim C2 (precondition short-circuit): an invocation with an empty (or
unset) `IBJ_USERNAME` or `IBJ_PASSWORD` fails with the fixed credentials
message, and one with credentials but no usable `ANTHROPIC_API_KEY` fails
with the fixed API-key message; in both cases the event trace is empty — no
browser is constructed and no agent is run — the password variable is
untouched, and the process exits with code 1. -/
theorem precondition_short_circuit (d : Delegate) (env : OsEnv) (args : CliArgs) :
    (env.ibj_username.getD "" = "" ∨ env.ibj_password.getD "" = "" →
        (main_run d env args).run =
          { result := { success := false, cookies := [],
                        error := some credentialsError, screenshots := [] }
            events := []
            passwordVar := env.ai_login_password
            finalUrl := "" }
      ∧ (main_run d env args).exitCode = 1)
  ∧ (env.ibj_username.getD "" ≠ "" → env.ibj_password.getD "" ≠ "" →
      env.anthropic_api_key.getD "" = "" →
        (main_run d env args).run =
          { result := { success := false, cookies := [],
                        error := some apiKeyError, screenshots := [] }
            events := []
            passwordVar := env.ai_login_password
            finalUrl := "" }
      ∧ (main_run d env args).exitCode = 1) := by
  constructor
  · intro hc
    have hpl : perform_login d env.anthropic_api_key args.vendor args.login_url
        (env.ibj_username.getD "") (env.ibj_password.getD "")
        (!args.no_headless) env.ai_login_password =
        { result := { success := false, cookies := [],
                      error := some credentialsError, screenshots := [] }
          events := []
          passwordVar := env.ai_login_password
          finalUrl := "" } := by
      unfold perform_login
      rw [if_pos hc]
    constructor
    · simp only [main_run]
      rw [hpl]
    · simp only [main_run]
      rw [hpl]
      rfl
  · intro hu hp hk
    have hpl : perform_login d env.anthropic_api_key args.vendor args.login_url
        (env.ibj_username.getD "") (env.ibj_password.getD "")
        (!args.no_headless) env.ai_login_password =
        { result := { success := false, cookies := [],
                      error := some apiKeyError, screenshots := [] }
          events := []
          passwordVar := env.ai_login_password
          finalUrl := "" } := by
      unfold perform_login
      rw [if_neg (fun hc => hc.elim hu hp), if_pos hk]
    constructor
    · simp only [main_run]
      rw [hpl]
    · simp only [main_run]
      rw [hpl]
      rfl

/-- A delegate none of whose calls are ever reached: every oracle field
raises.  Used to witness paths that must return before any external call. -/
def dNever : Delegate :=
  { chat_init := .error "never reached"
    browser_init := .error "never reached"
    agent_init := .error "never reached"
    agent_run := .error "never reached"
    get_context := .error "never reached"
    browser_close := .error "never reached" }

/-- CLI arguments used by concrete runs below. -/
def argsIbj : CliArgs :=
  { vendor := "ibj", login_url := "https://portal/logins"
    headless_flag := true, no_headless := false }

/-- Environment with no username set. -/
def envNoUser : OsEnv :=
  { ibj_username := none, ibj_password := some "pw"
    anthropic_api_key := some "k", ai_login_password := none }

/-- Environment with credentials but no API key. -/
def envNoKey : OsEnv :=
  { ibj_username := some "user", ibj_password := some "pw"
    anthropic_api_key := none, ai_login_password := none }

/-- Witness for C2: with the username unset the run fails with the
credentials message, no event, exit code 1; with credentials but no API key
it fails with the API-key message, no event, exit code 1. -/
theorem precondition_short_circuit_witness :
    ((main_run dNever envNoUser argsIbj).run.result.error = some credentialsError
      ∧ (main_run dNever envNoUser argsIbj).run.events = []
      ∧ (main_run dNever envNoUser argsIbj).exitCode = 1)
  ∧ ((main_run dNever envNoKey argsIbj).run.result.error = some apiKeyError
      ∧ (main_run dNever envNoKey argsIbj).run.events = []
      ∧ (main_run dNever envNoKey argsIbj).exitCode = 1) := by
  constructor
  · have h := (precondition_short_circuit dNever envNoUser argsIbj).1 (Or.inl rfl)
    exact ⟨by rw [h.1], by rw [h.1], h.2⟩
  · have h := (precondition_short_circuit dNever envNoKey argsIbj).2
      (by decide) (by decide) rfl
    exact ⟨by rw [h.1], by rw [h.1], h.2⟩

/-- Delegate for C5: LLM client and browser construction succeed; nothing
past the vendor check is ever reached. -/
def dVendor : Delegate :=
  { chat_init := .ok ()
    browser_init := .ok ()
    agent_init := .error "unreached"
    agent_run := .error "unreached"
    get_context := .error "unreached"
    browser_close := .error "unreached" }

/-- Claim C5 counterexample: for vendor "acme" with non-empty credentials
and API key, the result error is exactly "Unsupported vendor: acme" — but
the run is not side-effect free: the browser has been constructed (one
`browserConstructed` event) and `_AI_LOGIN_PASSWORD` has been set and is
left set, contradicting the claim that no browser is constructed and no
environment state is mutated before the check fires. -/
theorem unsupported_vendor_counterexample :
    (perform_login dVendor (some "k") "acme" "https://x/login" "u" "p" true
      none).result.error = some "Unsupported vendor: acme"
  ∧ (perform_login dVendor (some "k") "acme" "https://x/login" "u" "p" true
      none).events.count Event.browserConstructed = 1
  ∧ (perform_login dVendor (some "k") "acme" "https://x/login" "u" "p" true
      none).passwordVar = some "p" := by
  refine ⟨?_, ?_, ?_⟩ <;> decide

/-- Claim C5 as amended: for every vendor key other than "ibj", with
non-empty credentials and API key and with LLM-client and browser
construction succeeding, the result is a failure with error exactly
"Unsupported vendor: <key>" and no screenshots — but the check fires only
after the browser has been constructed and `_AI_LOGIN_PASSWORD` has been
written; the browser is never closed on this path and the variable is left
set in the environment. -/
theorem unsupported_vendor_amended (d : Delegate) (api_key : Option String)
    (vendor login_url username password : String) (headless : Bool)
    (pv : Option String) (hV : vendor ≠ "ibj") (hU : username ≠ "")
    (hP : password ≠ "") (hK : api_key.getD "" ≠ "")
    (hChat : d.chat_init = .ok ()) (hBrowser : d.browser_init = .ok ()) :
    perform_login d api_key vendor login_url username password headless pv =
      { result := { success := false, cookies := [],
                    error := some ("Unsupported vendor: " ++ vendor),
                    screenshots := [] }
        events := [Event.browserConstructed, Event.passwordVarSet password]
        passwordVar := some password
        finalUrl := "" } := by
  rw [perform_login_try d api_key vendor login_url username password headless
      pv hU hP hK, run_try_ok d vendor password hChat hBrowser]
  unfold after_browser
  rw [if_neg hV]

/-- Witness for the amended C5 at vendor "acme". -/
theorem unsupported_vendor_amended_witness :
    perform_login dVendor (some "k") "acme" "https://x/login" "u" "p" true
      none =
      { result := { success := false, cookies := [],
                    error := some "Unsupported vendor: acme",
                    screenshots := [] }
        events := [Event.browserConstructed, Event.passwordVarSet "p"]
        passwordVar := some "p"
        finalUrl := "" } :=
  unsupported_vendor_amended dVendor (some "k") "acme" "https://x/login"
    "u" "p" true none (by decide) (by decide) (by decide) (by decide) rfl rfl

/-- Final value of the `_AI_LOGIN_PASSWORD` environment variable after
`perform_login`, by path: untouched when a precondition check short-circuits
before the try block; removed (popped) on every path that enters the try
block — exception paths included — except the unsupported-vendor return,
which leaves the freshly written password in place. -/
def expectedPasswordVar (d : Delegate) (api_key : Option String)
    (vendor username password : String) (pv : Option String) : Option String :=
  if username = "" ∨ password = "" then pv
  else if api_key.getD "" = "" then pv
  else
    match d.chat_init with
    | .error _ => none
    | .ok _ =>
      match d.browser_init with
      | .error _ => none
      | .ok _ => if vendor = "ibj" then none else some password

/-- Claim C9 (password environment lifecycle): the final value of
`_AI_LOGIN_PASSWORD` is exactly `expectedPasswordVar` — removed on the
normal-completion and exception paths of the try block, left set on the
unsupported-vendor return — and on the path that reaches the agent the
variable is written immediately after browser construction and before the
agent is constructed (events 2 and 3 of the trace). -/
theorem password_var_lifecycle (d : Delegate) (api_key : Option String)
    (vendor login_url username password : String) (headless : Bool)
    (pv : Option String) :
    (perform_login d api_key vendor login_url username password headless
        pv).passwordVar =
      expectedPasswordVar d api_key vendor username password pv
  ∧ (username ≠ "" → password ≠ "" → api_key.getD "" ≠ "" →
      d.chat_init = .ok () → d.browser_init = .ok () →
      (perform_login d api_key vendor login_url username password headless
        pv).events.take 2 =
        [Event.browserConstructed, Event.passwordVarSet password])
  ∧ (username ≠ "" → password ≠ "" → api_key.getD "" ≠ "" →
      d.chat_init = .ok () → d.browser_init = .ok () → vendor = "ibj" →
      d.agent_init = .ok () →
      (perform_login d api_key vendor login_url username password headless
        pv).events.take 3 =
        [Event.browserConstructed, Event.passwordVarSet password,
         Event.agentConstructed]) := by
  refine ⟨?_, ?_, ?_⟩
  · unfold perform_login expectedPasswordVar
    by_cases hup : username = "" ∨ password = ""
    · rw [if_pos hup, if_pos hup]
    · rw [if_neg hup, if_neg hup]
      by_cases hk : api_key.getD "" = ""
      · rw [if_pos hk, if_pos hk]
      · rw [if_neg hk, if_neg hk]
        unfold run_try
        cases hc : d.chat_init with
        | error e => rfl
        | ok u =>
          cases hb : d.browser_init with
          | error e => rfl
          | ok u2 =>
            unfold after_browser
            by_cases hv : vendor = "ibj"
            · rw [if_pos hv, if_pos hv]
              cases ha : d.agent_init with
              | error e => rfl
              | ok u3 =>
                cases hr : d.agent_run with
                | error e => rfl
                | ok hist =>
                  cases hg : d.get_context with
                  | error e => rfl
                  | ok octx => exact extract_passwordVar ..
            · rw [if_neg hv, if_neg hv]
  · intro hU hP hK hChat hBrowser
    rw [perform_login_try d api_key vendor login_url username password
        headless pv hU hP hK, run_try_ok d vendor password hChat hBrowser]
    unfold after_browser
    by_cases hv : vendor = "ibj"
    · rw [if_pos hv]
      cases ha : d.agent_init with
      | error e => rfl
      | ok u3 =>
        cases hr : d.agent_run with
        | error e => rfl
        | ok hist =>
          cases hg : d.get_context with
          | error e => rfl
          | ok octx =>
            obtain ⟨t, ht⟩ := extract_events_extends d octx hist
              [Event.browserConstructed, Event.passwordVarSet password,
               Event.agentConstructed, Event.agentRan]
            rw [ht]
            rfl
    · rw [if_neg hv]
      rfl
  · intro hU hP hK hChat hBrowser hv hAgent
    rw [perform_login_try d api_key vendor login_url username password
        headless pv hU hP hK, run_try_ok d vendor password hChat hBrowser]
    unfold after_browser
    rw [if_pos hv, hAgent]
    cases hr : d.agent_run with
    | error e => rfl
    | ok hist =>
      cases hg : d.get_context with
      | error e => rfl
      | ok octx =>
        obtain ⟨t, ht⟩ := extract_events_extends d octx hist
          [Event.browserConstructed, Event.passwordVarSet password,
           Event.agentConstructed, Event.agentRan]
        rw [ht]
        rfl

/-- Witness for C9: on a concrete full run the variable ends removed and the
trace starts with browser construction, password write, agent construction;
on a concrete unsupported-vendor run the variable is left set. -/
theorem password_var_lifecycle_witness :
    (perform_login dC10 (some "key") "ibj" "https://portal/logins" "user"
      "pw" true (some "old")).passwordVar = none
  ∧ (perform_login dC10 (some "key") "ibj" "https://portal/logins" "user"
      "pw" true (some "old")).events.take 2 =
      [Event.browserConstructed, Event.passwordVarSet "pw"]
  ∧ (perform_login dC10 (some "key") "ibj" "https://portal/logins" "user"
      "pw" true (some "old")).events.take 3 =
      [Event.browserConstructed, Event.passwordVarSet "pw",
       Event.agentConstructed]
  ∧ (perform_login dVendor (some "key") "acme" "https://portal/logins"
      "user" "pw" true (some "old")).passwordVar = some "pw" := by
  have h := password_var_lifecycle dC10 (some "key") "ibj"
    "https://portal/logins" "user" "pw" true (some "old")
  have h2 := password_var_lifecycle dVendor (some "key") "acme"
    "https://portal/logins" "user" "pw" true (some "old")
  refine ⟨?_, h.2.1 (by decide) (by decide) (by decide) rfl rfl,
    h.2.2 (by decide) (by decide) (by decide) rfl rfl rfl rfl, ?_⟩
  · rw [h.1]
    decide
  · rw [h2.1]
    decide

/-- Delegate for C3: browser and agent construction succeed, then
`agent.run` raises; the later oracle fields are unreachable. -/
def dAgentRaise : Delegate :=
  { chat_init := .ok ()
    browser_init := .ok ()
    agent_init := .ok ()
    agent_run := .error "agent exploded"
    get_context := .error "unreached"
    browser_close := .ok () }

/-- Claim C3 counterexample: when `agent.run` raises after the browser has
been constructed, `browser.close` is invoked zero times — not exactly once —
before the function returns; the result does carry the exception message
verbatim. -/
theorem exception_path_counterexample :
    (perform_login dAgentRaise (some "k") "ibj" "https://x/logins" "u" "p"
      true none).events.count Event.browserCloseCalled = 0
  ∧ (perform_login dAgentRaise (some "k") "ibj" "https://x/logins" "u" "p"
      true none).events.count Event.browserConstructed = 1
  ∧ (perform_login dAgentRaise (some "k") "ibj" "https://x/logins" "u" "p"
      true none).result.error = some "agent exploded" := by
  refine ⟨?_, ?_, ?_⟩ <;> decide

/-- Claim C3 as amended: for every exception raised inside the try block
after the browser is constructed, the returned result is a failure whose
error string is the exception message verbatim, carrying the screenshots
collected so far — but the except handler performs no browser close, so the
close call appears in the trace only when the raising step was the
`browser.close()` call itself (zero times for every earlier raising step,
once in that last case). -/
theorem exception_path_amended (d : Delegate) (api_key : Option String)
    (login_url username password e : String) (headless : Bool)
    (pv : Option String) (hU : username ≠ "") (hP : password ≠ "")
    (hK : api_key.getD "" ≠ "") (hChat : d.chat_init = .ok ())
    (hBrowser : d.browser_init = .ok ()) :
    (d.agent_init = .error e →
      perform_login d api_key "ibj" login_url username password headless pv =
        { result := { success := false, cookies := [], error := some e,
                      screenshots := [] }
          events := [Event.browserConstructed, Event.passwordVarSet password]
          passwordVar := none, finalUrl := "" })
  ∧ (d.agent_init = .ok () → d.agent_run = .error e →
      perform_login d api_key "ibj" login_url username password headless pv =
        { result := { success := false, cookies := [], error := some e,
                      screenshots := [] }
          events := [Event.browserConstructed, Event.passwordVarSet password,
                     Event.agentConstructed]
          passwordVar := none, finalUrl := "" })
  ∧ (∀ hist, d.agent_init = .ok () → d.agent_run = .ok hist →
      d.get_context = .error e →
      perform_login d api_key "ibj" login_url username password headless pv =
        { result := { success := false, cookies := [], error := some e,
                      screenshots := [] }
          events := [Event.browserConstructed, Event.passwordVarSet password,
                     Event.agentConstructed, Event.agentRan]
          passwordVar := none, finalUrl := "" })
  ∧ (∀ hist ctx, d.agent_init = .ok () → d.agent_run = .ok hist →
      d.get_context = .ok (some ctx) → ctx.cookies = .error e →
      perform_login d api_key "ibj" login_url username password headless pv =
        { result := { success := false, cookies := [], error := some e,
                      screenshots := [] }
          events := [Event.browserConstructed, Event.passwordVarSet password,
                     Event.agentConstructed, Event.agentRan]
          passwordVar := none, finalUrl := "" })
  ∧ (∀ hist ctx raw, d.agent_init = .ok () → d.agent_run = .ok hist →
      d.get_context = .ok (some ctx) → ctx.cookies = .ok raw →
      ctx.pages = [] → ctx.new_page = .error e →
      perform_login d api_key "ibj" login_url username password headless pv =
        { result := { success := false, cookies := [], error := some e,
                      screenshots := [] }
          events := [Event.browserConstructed, Event.passwordVarSet password,
                     Event.agentConstructed, Event.agentRan]
          passwordVar := none, finalUrl := "" })
  ∧ (∀ hist ctx raw p b, d.agent_init = .ok () → d.agent_run = .ok hist →
      d.get_context = .ok (some ctx) → ctx.cookies = .ok raw →
      ctx.pages = [p] → p.screenshot = .ok b → d.browser_close = .error e →
      perform_login d api_key "ibj" login_url username password headless pv =
        { result := { success := false, cookies := [], error := some e,
                      screenshots := [b] }
          events := [Event.browserConstructed, Event.passwordVarSet password,
                     Event.agentConstructed, Event.agentRan,
                     Event.browserCloseCalled]
          passwordVar := none, finalUrl := p.url }) := by
  have hbase : perform_login d api_key "ibj" login_url username password
      headless pv = after_browser d "ibj" password := by
    rw [perform_login_try d api_key "ibj" login_url username password headless
        pv hU hP hK, run_try_ok d "ibj" password hChat hBrowser]
  refine ⟨fun hA => ?_, fun hA hR => ?_, fun hist hA hR hG => ?_,
    fun hist ctx hA hR hG hC => ?_, fun hist ctx raw hA hR hG hC hPg hNp => ?_,
    fun hist ctx raw p b hA hR hG hC hPg hS hCl => ?_⟩ <;> rw [hbase]
  · simp [after_browser, hA, handleExc]
  · simp [after_browser, hA, hR, handleExc]
  · simp [after_browser, hA, hR, hG, handleExc]
  · simp [after_browser, hA, hR, hG, extract_and_report, hC, handleExc]
  · simp [after_browser, hA, hR, hG, extract_and_report, hC, pick_page, hPg,
      hNp, Except.map, handleExc]
  · simp [after_browser, hA, hR, hG, extract_and_report, hC, pick_page, hPg,
      screenshots_of, hS, url_of, finishRun, hCl]

/-- Witness for the amended C3: on the concrete delegate whose `agent.run`
raises "agent exploded", the run returns the verbatim failure with the
events collected before the raise and no close call. -/
theorem exception_path_amended_witness :
    perform_login dAgentRaise (some "k") "ibj" "https://x/logins" "u" "p"
      true none =
      { result := { success := false, cookies := [],
                    error := some "agent exploded", screenshots := [] }
        events := [Event.browserConstructed, Event.passwordVarSet "p",
                   Event.agentConstructed]
        passwordVar := none, finalUrl := "" } :=
  (exception_path_amended dAgentRaise (some "k") "https://x/logins" "u" "p"
    "agent exploded" true none (by decide) (by decide) (by decide) rfl
    rfl).2.1 rfl rfl

/-- Context for C4: reading the cookie jar raises. -/
def ctxCookieRaise : BrowserContext :=
  { cookies := .error "cookie jar exploded"
    pages := []
    new_page := .error "unreached" }

/-- Delegate for C4: the agent run succeeds with a history containing the
"OTP" marker, the context is available, but its `cookies()` call raises. -/
def dCookieRaise : Delegate :=
  { chat_init := .ok ()
    browser_init := .ok ()
    agent_init := .ok ()
    agent_run := .ok "reached the OTP page"
    get_context := .ok (some ctxCookieRaise)
    browser_close := .ok () }

/-- Claim C4 counterexample: when `context.cookies()` raises, the failure is
not downgraded to an empty cookie list — it propagates to the outer handler
and the whole run becomes a failure carrying that exception message, even
though the classifier (history contains "OTP") would have reported success. -/
theorem cookie_extraction_counterexample :
    (perform_login dCookieRaise (some "k") "ibj" "https://x/logins" "u" "p"
      true none).result.success = false
  ∧ (perform_login dCookieRaise (some "k") "ibj" "https://x/logins" "u" "p"
      true none).result.error = some "cookie jar exploded"
  ∧ login_success_check "" "reached the OTP page" = true := by
  refine ⟨?_, ?_, ?_⟩ <;> decide

/-- Claim C4 as amended: only the case in which `browser.get_context()`
returns a falsy context is downgraded to an empty cookie list (with the
success flag still decided by the classifier on the history); an exception
raised by `get_context()` or by `cookies()` is not absorbed — it propagates
to the outer handler and turns the whole run into a failure carrying that
exception's message. -/
theorem cookie_extraction_amended (d : Delegate) (api_key : Option String)
    (login_url username password hist e : String) (headless : Bool)
    (pv : Option String) (ctx : BrowserContext) (hU : username ≠ "")
    (hP : password ≠ "") (hK : api_key.getD "" ≠ "")
    (hChat : d.chat_init = .ok ()) (hBrowser : d.browser_init = .ok ())
    (hA : d.agent_init = .ok ()) (hR : d.agent_run = .ok hist) :
    (d.get_context = .ok none → d.browser_close = .ok () →
        (perform_login d api_key "ibj" login_url username password headless
          pv).result.cookies = []
      ∧ (perform_login d api_key "ibj" login_url username password headless
          pv).result.success = login_success_check "" hist
      ∧ (perform_login d api_key "ibj" login_url username password headless
          pv).finalUrl = "")
  ∧ (d.get_context = .error e →
      (perform_login d api_key "ibj" login_url username password headless
        pv).result =
        { success := false, cookies := [], error := some e,
          screenshots := [] })
  ∧ (d.get_context = .ok (some ctx) → ctx.cookies = .error e →
      (perform_login d api_key "ibj" login_url username password headless
        pv).result =
        { success := false, cookies := [], error := some e,
          screenshots := [] }) := by
  have hbase : perform_login d api_key "ibj" login_url username password
      headless pv = after_browser d "ibj" password := by
    rw [perform_login_try d api_key "ibj" login_url username password headless
        pv hU hP hK, run_try_ok d "ibj" password hChat hBrowser]
  refine ⟨fun hG hCl => ?_, fun hG => ?_, fun hG hC => ?_⟩ <;> rw [hbase]
  · refine ⟨?_, ?_, ?_⟩ <;>
    · cases hls : login_success_check "" hist <;>
        simp [after_browser, hA, hR, hG, extract_and_report, finishRun, hCl,
          classify_outcome, hls]
  · simp [after_browser, hA, hR, hG, handleExc]
  · simp [after_browser, hA, hR, hG, extract_and_report, hC, handleExc]

/-- Witness for the amended C4: on the concrete delegate whose `cookies()`
call raises, the run result is the propagated failure. -/
theorem cookie_extraction_amended_witness :
    (perform_login dCookieRaise (some "k") "ibj" "https://x/logins" "u" "p"
      true none).result =
      { success := false, cookies := [], error := some "cookie jar exploded",
        screenshots := [] } :=
  (cookie_extraction_amended dCookieRaise (some "k") "https://x/logins" "u"
    "p" "reached the OTP page" "cookie jar exploded" true none ctxCookieRaise
    (by decide) (by decide) (by decide) rfl rfl rfl rfl).2.2 rfl rfl

/-- Claim C7 (cookie normalization): on a successful run every emitted
cookie is the normalization of a raw cookie from the jar — the emitted list
is exactly `raw.map normalizeCookie` — and normalization fills every one of
the eight fields of the fixed shape, applying the defaults "/" for `path`,
-1 for `expires` and "Lax" for `sameSite` (and "" / false for the remaining
fields) whenever the source record omits the field. -/
theorem cookie_normalization (d : Delegate) (api_key : Option String)
    (login_url username password hist b : String) (headless : Bool)
    (pv : Option String) (ctx : BrowserContext) (raw : List RawCookie)
    (p : Page) (hU : username ≠ "") (hP : password ≠ "")
    (hK : api_key.getD "" ≠ "") (hChat : d.chat_init = .ok ())
    (hBrowser : d.browser_init = .ok ()) (hA : d.agent_init = .ok ())
    (hR : d.agent_run = .ok hist) (hG : d.get_context = .ok (some ctx))
    (hC : ctx.cookies = .ok raw) (hPg : ctx.pages = [p])
    (hS : p.screenshot = .ok b) (hCl : d.browser_close = .ok ())
    (hSucc : login_success_check p.url hist = true) :
    (perform_login d api_key "ibj" login_url username password headless
      pv).result.cookies = raw.map normalizeCookie
  ∧ ∀ c : RawCookie,
      (normalizeCookie c).name = c.name.getD ""
    ∧ (normalizeCookie c).value = c.value.getD ""
    ∧ (normalizeCookie c).domain = c.domain.getD ""
    ∧ (normalizeCookie c).path = c.path.getD "/"
    ∧ (normalizeCookie c).expires = c.expires.getD (-1)
    ∧ (normalizeCookie c).httpOnly = c.httpOnly.getD false
    ∧ (normalizeCookie c).secure = c.secure.getD false
    ∧ (normalizeCookie c).sameSite = c.sameSite.getD "Lax"
    ∧ (c.path = none → (normalizeCookie c).path = "/")
    ∧ (c.expires = none → (normalizeCookie c).expires = -1)
    ∧ (c.sameSite = none → (normalizeCookie c).sameSite = "Lax") := by
  constructor
  · rw [perform_login_try d api_key "ibj" login_url username password headless
        pv hU hP hK, run_try_ok d "ibj" password hChat hBrowser]
    simp [after_browser, hA, hR, hG, extract_and_report, hC, pick_page, hPg,
      screenshots_of, hS, url_of, finishRun, hCl, classify_outcome, hSucc]
  · intro c
    refine ⟨rfl, rfl, rfl, rfl, rfl, rfl, rfl, rfl, ?_, ?_, ?_⟩ <;>
      intro hc <;> simp [normalizeCookie, hc]

/-- Raw cookie omitting `path`, `expires` and `sameSite`. -/
def rawSession : RawCookie :=
  { name := some "sid", value := some "abc", domain := some "portal.example"
    path := none, expires := none, httpOnly := some true
    secure := some true, sameSite := none }

/-- Raw cookie with every field present. -/
def rawFull : RawCookie :=
  { name := some "pref", value := some "x", domain := some "portal.example"
    path := some "/app", expires := some 123, httpOnly := some false
    secure := some false, sameSite := some "Strict" }

/-- Page for the C7 witness run: a post-login URL. -/
def pageMy : Page :=
  { url := "https://portal/mypage", screenshot := .ok "imgdata" }

/-- Context for the C7 witness run. -/
def ctxCookies : BrowserContext :=
  { cookies := .ok [rawSession, rawFull]
    pages := [pageMy]
    new_page := .error "unreached" }

/-- Delegate for the C7 witness run: a fully successful session. -/
def dCookies : Delegate :=
  { chat_init := .ok ()
    browser_init := .ok ()
    agent_init := .ok ()
    agent_run := .ok "login done"
    get_context := .ok (some ctxCookies)
    browser_close := .ok () }

/-- Witness for C7: the concrete run emits exactly the two normalized
cookies, with defaults "/" / -1 / "Lax" filled in for the record that omits
`path`, `expires` and `sameSite`. -/
theorem cookie_normalization_witness :
    (perform_login dCookies (some "k") "ibj" "https://x/logins" "u" "p" true
      none).result.cookies =
      [ { name := "sid", value := "abc", domain := "portal.example"
          path := "/", expires := -1, httpOnly := true, secure := true
          sameSite := "Lax" },
        { name := "pref", value := "x", domain := "portal.example"
          path := "/app", expires := 123, httpOnly := false, secure := false
          sameSite := "Strict" } ] := by
  have h := (cookie_normalization dCookies (some "k") "https://x/logins" "u"
    "p" "login done" "imgdata" true none ctxCookies [rawSession, rawFull]
    pageMy (by decide) (by decide) (by decide) rfl rfl rfl rfl rfl rfl rfl
    rfl rfl (by decide)).1
  rw [h]
  rfl

end AiLogin
